import Mathlib

/-!
Shallow embedding of the session facade layer of `src/wormhole/wormhole.py`:
the future/observer core `_DeferredWormhole`, the delegate adapter
`_DelegatedWormhole`, and the factory `create`.

Twisted Deferreds are modelled by identifiers (`Nat`): an operation that
registers a waiter returns `WhenResult.pending d` where `d` is a fresh
identifier recorded in the corresponding observer list; an operation that
returns an already-resolved Deferred (`defer.succeed` / `defer.fail`, or
`d.callback` with a `Failure`) returns `WhenResult.immediate o`.  Engine
events (`got_*`, `received`, `closed`) return, besides the new facade state,
the list of `(deferred id, outcome)` firings they perform, in the order the
source performs them.  Python truthiness (`if self._closed_result:`,
`if not self._key:`) is modelled faithfully by `PyVal.truthy`.
-/

namespace WormholeSpec

/-- Python values that flow through the facade: code strings, key/verifier
byte strings, version mappings, and `None`. -/
inductive PyVal where
  | str (s : String)
  | bytes (b : List Nat)
  | pyNone
  | dict (entries : List (String × String))
deriving DecidableEq, Repr

/-- Python truthiness of a value (`if v:`): empty strings, empty byte
strings, empty dicts and `None` are falsy. -/
def PyVal.truthy : PyVal → Bool
  | .str s => !s.isEmpty
  | .bytes b => !b.isEmpty
  | .pyNone => false
  | .dict d => !d.isEmpty

/-- `isinstance(v, type(""))`: is the value a text string? -/
def PyVal.isStr : PyVal → Bool
  | .str _ => true
  | _ => false

/-- Truthiness of an optional attribute (`None` when absent). -/
def optTruthy : Option PyVal → Bool
  | none => false
  | some v => v.truthy

/-- Errors raised or used to fail Deferreds by the facade. -/
inductive Err where
  | wormholeClosed (v : PyVal)
  | sessionFailure (e : PyVal)
  | noKey
  | typeError
deriving DecidableEq, Repr

/-- Resolution of a Deferred: success value, or failure. -/
inductive Outcome where
  | ok (v : PyVal)
  | err (e : Err)
deriving DecidableEq, Repr

/-- Python truthiness of a stored result object: a `Failure` instance is
always truthy; a plain value is as truthy as the value. -/
def Outcome.truthy : Outcome → Bool
  | .err _ => true
  | .ok v => v.truthy

/-- What a facade method hands back to the caller: a Deferred that is already
resolved, or a pending Deferred identified by a fresh id. -/
inductive WhenResult where
  | immediate (o : Outcome)
  | pending (d : Nat)
deriving DecidableEq, Repr

/-- Argument of the engine event `closed(result)`: an `Exception` instance,
or a plain (success) value. -/
inductive CloseInput where
  | value (v : PyVal)
  | exception (e : PyVal)
deriving DecidableEq, Repr

/-- State of `_DeferredWormhole` (its `__init__` fields), plus the fresh
Deferred counter `nextId` and the count of `self._boss.close()` calls. -/
structure DW where
  code : Option PyVal := none
  codeObservers : List Nat := []
  key : Option PyVal := none
  keyObservers : List Nat := []
  verifier : Option PyVal := none
  verifierObservers : List Nat := []
  versions : Option PyVal := none
  versionObservers : List Nat := []
  receivedData : List PyVal := []
  receivedObservers : List Nat := []
  observerResult : Option Err := none
  closedResult : Option Outcome := none
  closedObservers : List Nat := []
  nextId : Nat := 0
  bossCloseCalls : Nat := 0
deriving DecidableEq, Repr

/-- A freshly constructed `_DeferredWormhole`. -/
def DW.init : DW := {}

/-- The four scalar events of the facade. -/
inductive Scalar where
  | code
  | key
  | verifier
  | version
deriving DecidableEq, Repr

/-- Cached value of a scalar (`self._code`, `self._key`, ...). -/
def Scalar.val : Scalar → DW → Option PyVal
  | .code, st => st.code
  | .key, st => st.key
  | .verifier, st => st.verifier
  | .version, st => st.versions

/-- Observer list of a scalar (`self._code_observers`, ...). -/
def Scalar.obs : Scalar → DW → List Nat
  | .code, st => st.codeObservers
  | .key, st => st.keyObservers
  | .verifier, st => st.verifierObservers
  | .version, st => st.versionObservers

/-- Append a pending Deferred id to a scalar's observer list. -/
def Scalar.addObs : Scalar → Nat → DW → DW
  | .code, d, st => { st with codeObservers := st.codeObservers ++ [d] }
  | .key, d, st => { st with keyObservers := st.keyObservers ++ [d] }
  | .verifier, d, st => { st with verifierObservers := st.verifierObservers ++ [d] }
  | .version, d, st => { st with versionObservers := st.versionObservers ++ [d] }

/-- Cache a delivered scalar value and clear its observer list
(the state effect of `got_code` / `got_key` / `got_verifier` / `got_version`). -/
def Scalar.deliver : Scalar → PyVal → DW → DW
  | .code, v, st => { st with code := some v, codeObservers := [] }
  | .key, v, st => { st with key := some v, keyObservers := [] }
  | .verifier, v, st => { st with verifier := some v, verifierObservers := [] }
  | .version, v, st => { st with versions := some v, versionObservers := [] }

/-- Common body of `when_code` / `when_key` / `when_verified` / `when_version`:
fail immediately if `self._observer_result is not None`, return the cached
value immediately if known, otherwise register a fresh pending Deferred. -/
def whenScalar (s : Scalar) (st : DW) : DW × WhenResult :=
  match st.observerResult with
  | some e => (st, .immediate (.err e))
  | none =>
    match s.val st with
    | some v => (st, .immediate (.ok v))
    | none =>
      (s.addObs st.nextId { st with nextId := st.nextId + 1 }, .pending st.nextId)

def DW.when_code (st : DW) : DW × WhenResult := whenScalar .code st

def DW.when_key (st : DW) : DW × WhenResult := whenScalar .key st

def DW.when_verified (st : DW) : DW × WhenResult := whenScalar .verifier st

def DW.when_version (st : DW) : DW × WhenResult := whenScalar .version st

/-- `when_received`: fail immediately after close; pop the oldest buffered
message if any (`self._received_data.pop(0)`); otherwise register a fresh
pending Deferred. -/
def DW.when_received (st : DW) : DW × WhenResult :=
  match st.observerResult with
  | some e => (st, .immediate (.err e))
  | none =>
    match st.receivedData with
    | m :: rest => ({ st with receivedData := rest }, .immediate (.ok m))
    | [] =>
      ({ st with receivedObservers := st.receivedObservers ++ [st.nextId],
                 nextId := st.nextId + 1 }, .pending st.nextId)

/-- Common body of the `got_*` events: cache the value, then fire every
pending observer with it, in list (= registration) order, and clear the list. -/
def gotScalar (s : Scalar) (v : PyVal) (st : DW) : DW × List (Nat × Outcome) :=
  (s.deliver v st, (s.obs st).map (fun d => (d, Outcome.ok v)))

def DW.got_code (st : DW) (c : PyVal) : DW × List (Nat × Outcome) :=
  gotScalar .code c st

def DW.got_key (st : DW) (k : PyVal) : DW × List (Nat × Outcome) :=
  gotScalar .key k st

def DW.got_verifier (st : DW) (v : PyVal) : DW × List (Nat × Outcome) :=
  gotScalar .verifier v st

def DW.got_version (st : DW) (v : PyVal) : DW × List (Nat × Outcome) :=
  gotScalar .version v st

/-- `received(plaintext)`: resolve the oldest pending receive waiter
(`self._received_observers.pop(0)`) if any, else append to the buffer. -/
def DW.received (st : DW) (m : PyVal) : DW × List (Nat × Outcome) :=
  match st.receivedObservers with
  | d :: rest => ({ st with receivedObservers := rest }, [(d, Outcome.ok m)])
  | [] => ({ st with receivedData := st.receivedData ++ [m] }, [])

/-- The error installed in `self._observer_result` by `closed(result)`:
the failure itself when `result` is an exception, `WormholeClosed(result)`
when it is a plain value. -/
def obsErrOf : CloseInput → Err
  | .exception e => .sessionFailure e
  | .value v => .wormholeClosed v

/-- The outcome installed in `self._closed_result` by `closed(result)`:
the failure itself when `result` is an exception (so a close observer fired
with it fails), the plain value itself otherwise. -/
def closeResOf : CloseInput → Outcome
  | .exception e => .err (.sessionFailure e)
  | .value v => .ok v

/-- `closed(result)`: set `_observer_result` and `_closed_result`, errback
every pending scalar and receive observer with `_observer_result`, then fire
every close observer with `_closed_result` (a `callback` with a `Failure`
fails the Deferred). Firings are listed in the order the source performs
them. -/
def DW.closed (st : DW) (result : CloseInput) : DW × List (Nat × Outcome) :=
  ({ st with observerResult := some (obsErrOf result),
             closedResult := some (closeResOf result) },
   st.codeObservers.map (fun d => (d, Outcome.err (obsErrOf result))) ++
   st.keyObservers.map (fun d => (d, Outcome.err (obsErrOf result))) ++
   st.verifierObservers.map (fun d => (d, Outcome.err (obsErrOf result))) ++
   st.versionObservers.map (fun d => (d, Outcome.err (obsErrOf result))) ++
   st.receivedObservers.map (fun d => (d, Outcome.err (obsErrOf result))) ++
   st.closedObservers.map (fun d => (d, closeResOf result)))

/-- The fall-through body of `close()`: register a fresh close observer and
call `self._boss.close()`. -/
def closeRegister (st : DW) : DW :=
  { st with closedObservers := st.closedObservers ++ [st.nextId],
            nextId := st.nextId + 1,
            bossCloseCalls := st.bossCloseCalls + 1 }

/-- `close()`: `if self._closed_result:` (Python truthiness — `None`, and any
falsy plain value, fail this test) return the cached result as an
already-resolved Deferred; otherwise register a close observer and forward
close to the engine. -/
def DW.close (st : DW) : DW × WhenResult :=
  match st.closedResult with
  | some r =>
    if r.truthy then (st, .immediate r)
    else (closeRegister st, .pending st.nextId)
  | none => (closeRegister st, .pending st.nextId)

/-- Modelled from the spec: `util.to_bytes` is not under `src/`; the spec only
says the purpose is "encoded as bytes" (UTF-8 in the source). Encoded here as
the sequence of character code points — an injective stand-in, since the
byte-level detail is outside `src/`. -/
def to_bytes : PyVal → List Nat
  | .str s => s.data.map Char.toNat
  | .bytes b => b
  | _ => []

/-- Common body of `derive_key` on both facade flavors:
`TypeError` unless the purpose is a text string, `NoKeyError` while
`not self._key` (Python truthiness: also for an empty cached key), otherwise
delegate to the external derivation function `kdf` on
(cached key, purpose as bytes, length). -/
def deriveKeyCall (kdf : PyVal → List Nat → Nat → List Nat)
    (key : Option PyVal) (purpose : PyVal) (length : Nat) :
    Except Err (List Nat) :=
  if !purpose.isStr then .error .typeError
  else if !optTruthy key then .error .noKey
  else .ok (kdf (key.getD .pyNone) (to_bytes purpose) length)

/-- `_DeferredWormhole.derive_key`. -/
def DW.derive_key (kdf : PyVal → List Nat → Nat → List Nat)
    (st : DW) (purpose : PyVal) (length : Nat) : Except Err (List Nat) :=
  deriveKeyCall kdf st.key purpose length

/-- State of `_DelegatedWormhole`: only the cached session key. -/
structure DelW where
  key : Option PyVal := none
deriving DecidableEq, Repr

/-- A call performed on the caller-supplied delegate object. -/
inductive DelegateCall where
  | wormhole_code (c : PyVal)
  | wormhole_key (k : PyVal)
  | wormhole_verified (v : PyVal)
  | wormhole_version (v : PyVal)
  | wormhole_received (m : PyVal)
  | wormhole_closed (r : CloseInput)
deriving DecidableEq, Repr

/-- `_DelegatedWormhole.derive_key` (same body as the deferred flavor). -/
def DelW.derive_key (kdf : PyVal → List Nat → Nat → List Nat)
    (st : DelW) (purpose : PyVal) (length : Nat) : Except Err (List Nat) :=
  deriveKeyCall kdf st.key purpose length

/-- `_DelegatedWormhole.got_key(key)`: invokes `self._delegate.wormhole_key(key)`
first, and only then executes `self._key = key`. Returns the state after
`got_key` returns, and the delegate call paired with the facade state visible
to a re-entrant call made from inside the delegate handler (the unmodified
pre-call state). -/
def DelW.got_key (st : DelW) (k : PyVal) : DelW × (DelegateCall × DelW) :=
  ({ key := some k }, (.wormhole_key k, st))

/-- `_DelegatedWormhole.closed(result)`: forwards to the delegate; the cached
key is not touched. -/
def DelW.closed (st : DelW) (result : CloseInput) : DelW × (DelegateCall × DelW) :=
  (st, (.wormhole_closed result, st))

/-- One lowercase hex digit. -/
def hexDigit (n : Nat) : Char :=
  if n < 10 then Char.ofNat (48 + n) else Char.ofNat (87 + n)

/-- Modelled from the spec: `util.bytes_to_hexstr` is not under `src/`; the
spec says the side identifier is "the hex encoding of a fixed-length random
byte string". Standard lowercase hex, two digits per byte. -/
def bytes_to_hexstr (b : List Nat) : String :=
  String.mk (b.flatMap (fun x => [hexDigit (x / 16 % 16), hexDigit (x % 16)]))

/-- The arguments `create` hands to the engine (`Boss(...)`), and whether
`b.start()` ran before `create` returned. -/
structure Boss where
  side : String
  relay_url : String
  appid : String
  wormhole_versions : List (String × PyVal)
  started : Bool
deriving DecidableEq, Repr

/-- The facade flavor chosen by `create`. -/
inductive Facade where
  | delegated (w : DelW)
  | deferredStyle (w : DW)
deriving DecidableEq, Repr

/-- What `create` returns: the facade, and the engine it wired and started. -/
structure CreateResult where
  facade : Facade
  boss : Boss
deriving DecidableEq, Repr

/-- The factory `create(appid, relay_url, ...)`. Randomness (`os.urandom`) is
passed in as the byte source `urandom`; `delegate` records whether a delegate
object was supplied (`if delegate:` — a supplied handler object is truthy).
The engine record is built with the hex side id and the capability payload
`{"app_versions": versions}`, and is started (`b.start()`) before the facade
is returned. -/
def create (appid relay_url : String) (versions : PyVal) (delegate : Bool)
    (urandom : Nat → List Nat) : CreateResult :=
  let side := bytes_to_hexstr (urandom 5)
  let w : Facade := if delegate then .delegated {} else .deferredStyle DW.init
  let wormhole_versions : List (String × PyVal) := [("app_versions", versions)]
  { facade := w,
    boss := { side := side, relay_url := relay_url, appid := appid,
              wormhole_versions := wormhole_versions, started := true } }

/-! Helper lemmas about the scalar accessors. -/

theorem Scalar.val_addObs (s : Scalar) (d : Nat) (st : DW) :
    s.val (s.addObs d st) = s.val st := by
  cases s <;> rfl

theorem Scalar.obs_addObs (s : Scalar) (d : Nat) (st : DW) :
    s.obs (s.addObs d st) = s.obs st ++ [d] := by
  cases s <;> rfl

theorem Scalar.addObs_observerResult (s : Scalar) (d : Nat) (st : DW) :
    (s.addObs d st).observerResult = st.observerResult := by
  cases s <;> rfl

theorem Scalar.addObs_nextId (s : Scalar) (d : Nat) (st : DW) :
    (s.addObs d st).nextId = st.nextId := by
  cases s <;> rfl

theorem Scalar.val_setNextId (s : Scalar) (st : DW) (m : Nat) :
    s.val { st with nextId := m } = s.val st := by
  cases s <;> rfl

theorem Scalar.obs_setNextId (s : Scalar) (st : DW) (m : Nat) :
    s.obs { st with nextId := m } = s.obs st := by
  cases s <;> rfl

theorem Scalar.val_deliver (s : Scalar) (v : PyVal) (st : DW) :
    s.val (s.deliver v st) = some v := by
  cases s <;> rfl

theorem Scalar.obs_deliver (s : Scalar) (v : PyVal) (st : DW) :
    s.obs (s.deliver v st) = [] := by
  cases s <;> rfl

theorem Scalar.deliver_observerResult (s : Scalar) (v : PyVal) (st : DW) :
    (s.deliver v st).observerResult = st.observerResult := by
  cases s <;> rfl

/-- `whenScalar` on an undelivered, unclosed scalar registers a fresh
pending Deferred. -/
theorem whenScalar_pending (s : Scalar) (st : DW)
    (hres : st.observerResult = none) (hval : s.val st = none) :
    whenScalar s st =
      (s.addObs st.nextId { st with nextId := st.nextId + 1 },
       .pending st.nextId) := by
  simp [whenScalar, hres, hval]

/-- `whenScalar` on a delivered, unclosed scalar resolves immediately with
the cached value. -/
theorem whenScalar_cached (s : Scalar) (st : DW) (v : PyVal)
    (hres : st.observerResult = none) (hval : s.val st = some v) :
    whenScalar s st = (st, .immediate (.ok v)) := by
  simp [whenScalar, hres, hval]

/-- `whenScalar` after close resolves immediately with the recorded error. -/
theorem whenScalar_closed (s : Scalar) (st : DW) (e : Err)
    (hres : st.observerResult = some e) :
    whenScalar s st = (st, .immediate (.err e)) := by
  simp [whenScalar, hres]

/-- Iterate a facade call `n` times, collecting the returned Deferreds in
call order. -/
def iterWhen (f : DW → DW × WhenResult) : DW → Nat → DW × List WhenResult
  | st, 0 => (st, [])
  | st, n + 1 =>
    let p := f st
    let q := iterWhen f p.1 n
    (q.1, p.2 :: q.2)

/-- Registering `n` waiters for an undelivered, unclosed scalar yields `n`
pending Deferreds with consecutive fresh ids, appended to the observer list
in registration order; the cached value, the recorded close error and the
other observable fields are untouched. -/
theorem iterWhen_scalar (s : Scalar) (n : Nat) (st : DW)
    (hres : st.observerResult = none) (hval : s.val st = none) :
    (iterWhen (whenScalar s) st n).2 =
        (List.range' st.nextId n).map WhenResult.pending ∧
    s.obs (iterWhen (whenScalar s) st n).1 =
        s.obs st ++ List.range' st.nextId n ∧
    s.val (iterWhen (whenScalar s) st n).1 = none ∧
    (iterWhen (whenScalar s) st n).1.observerResult = none ∧
    (iterWhen (whenScalar s) st n).1.nextId = st.nextId + n := by
  induction n generalizing st with
  | zero => simp [iterWhen, hres, hval]
  | succ n ih =>
    have hstep := whenScalar_pending s st hres hval
    have h1 : (s.addObs st.nextId { st with nextId := st.nextId + 1 }).observerResult
        = none := by
      rw [Scalar.addObs_observerResult]; exact hres
    have h2 : s.val (s.addObs st.nextId { st with nextId := st.nextId + 1 }) = none := by
      rw [Scalar.val_addObs, Scalar.val_setNextId]; exact hval
    have hnext : (s.addObs st.nextId { st with nextId := st.nextId + 1 }).nextId
        = st.nextId + 1 := by
      rw [Scalar.addObs_nextId]
    obtain ⟨ih1, ih2, ih3, ih4, ih5⟩ :=
      ih (s.addObs st.nextId { st with nextId := st.nextId + 1 }) h1 h2
    refine ⟨?_, ?_, ?_, ?_, ?_⟩
    · simp only [iterWhen, hstep, ih1, hnext, List.range'_succ, List.map_cons]
    · simp only [iterWhen, hstep, ih2, Scalar.obs_addObs, Scalar.obs_setNextId, hnext,
        List.range'_succ, List.append_assoc, List.singleton_append]
    · simp only [iterWhen, hstep, ih3]
    · simp only [iterWhen, hstep, ih4]
    · simp only [iterWhen, hstep, ih5, hnext, List.range'_succ]
      omega

/-- Concrete stand-in for the external derivation function, used in
counterexamples and witnesses. -/
def kdf0 : PyVal → List Nat → Nat → List Nat := fun _ _ n => List.replicate n 0

/-- Claim C1: for every scalar event in Code, SessionKey, Verifier,
VersionInfo on the deferred facade, `n` waiters registered via the
corresponding `when_*` before the `got_*` event all come back pending with
consecutive fresh ids, the delivery fires exactly those `n` waiters with the
delivered value in registration order, and a waiter registered after delivery
(no close having occurred) resolves immediately with the same cached value. -/
theorem scalar_delivery_ordered (s : Scalar) (st : DW) (v : PyVal) (n : Nat)
    (hres : st.observerResult = none) (hval : s.val st = none)
    (hobs : s.obs st = []) :
    (iterWhen (whenScalar s) st n).2 =
        (List.range' st.nextId n).map WhenResult.pending ∧
    (gotScalar s v (iterWhen (whenScalar s) st n).1).2 =
        (List.range' st.nextId n).map (fun d => (d, Outcome.ok v)) ∧
    (whenScalar s (gotScalar s v (iterWhen (whenScalar s) st n).1).1).2 =
        .immediate (.ok v) := by
  obtain ⟨h1, h2, h3, h4, h5⟩ := iterWhen_scalar s n st hres hval
  refine ⟨h1, ?_, ?_⟩
  · simp [gotScalar, h2, hobs]
  · have hres' :
        (gotScalar s v (iterWhen (whenScalar s) st n).1).1.observerResult = none := by
      simp [gotScalar, Scalar.deliver_observerResult, h4]
    have hval' :
        s.val (gotScalar s v (iterWhen (whenScalar s) st n).1).1 = some v := by
      simp [gotScalar, Scalar.val_deliver]
    rw [whenScalar_cached s _ v hres' hval']

theorem scalar_delivery_ordered_witness :
    DW.init.observerResult = none ∧
    ((iterWhen (whenScalar .code) DW.init 2).2 =
        (List.range' DW.init.nextId 2).map WhenResult.pending ∧
     (gotScalar .code (.str "4-x") (iterWhen (whenScalar .code) DW.init 2).1).2 =
        (List.range' DW.init.nextId 2).map
          (fun d => (d, Outcome.ok (.str "4-x"))) ∧
     (whenScalar .code
        (gotScalar .code (.str "4-x") (iterWhen (whenScalar .code) DW.init 2).1).1).2 =
        .immediate (.ok (.str "4-x"))) :=
  ⟨rfl, scalar_delivery_ordered .code DW.init (.str "4-x") 2 rfl rfl rfl⟩

/-- Claim C2: inbound-message FIFO on the deferred facade. A `when_received`
call with a non-empty buffer returns the oldest buffered message and removes
it; a `received` event with waiters pending resolves the oldest pending
waiter; sends `m1, m2, m3` followed by two waiters resolve them with
`m1, m2` in order leaving `m3` buffered; two waiters registered before any
send resolve with the first two arrivals in order. -/
theorem received_fifo (st : DW) (m1 m2 m3 a1 a2 : PyVal)
    (hres : st.observerResult = none) (hbuf : st.receivedData = [])
    (hobs : st.receivedObservers = []) :
    (∀ (t : DW) (q : PyVal) (rest : List PyVal), t.observerResult = none →
        t.receivedData = q :: rest →
        t.when_received = ({ t with receivedData := rest }, .immediate (.ok q))) ∧
    (∀ (t : DW) (m : PyVal) (d : Nat) (rest : List Nat),
        t.receivedObservers = d :: rest →
        t.received m = ({ t with receivedObservers := rest }, [(d, Outcome.ok m)])) ∧
    (((((st.received m1).1.received m2).1.received m3).1.when_received).2 =
        .immediate (.ok m1) ∧
     ((((((st.received m1).1.received m2).1.received m3).1.when_received).1.when_received).2 =
        .immediate (.ok m2)) ∧
     ((((((st.received m1).1.received m2).1.received m3).1.when_received).1.when_received).1.receivedData =
        [m3])) ∧
    ((st.when_received).2 = .pending st.nextId ∧
     (((st.when_received).1.when_received).2 = .pending (st.nextId + 1)) ∧
     ((((st.when_received).1.when_received).1.received a1).2 =
        [(st.nextId, Outcome.ok a1)]) ∧
     (((((st.when_received).1.when_received).1.received a1).1.received a2).2 =
        [(st.nextId + 1, Outcome.ok a2)])) := by
  refine ⟨?_, ?_, ?_, ?_⟩
  · intro t q rest h1 h2
    simp [DW.when_received, h1, h2]
  · intro t m d rest h1
    simp [DW.received, h1]
  · refine ⟨?_, ?_, ?_⟩ <;>
      simp [DW.received, DW.when_received, hres, hbuf, hobs]
  · refine ⟨?_, ?_, ?_, ?_⟩ <;>
      simp [DW.received, DW.when_received, hres, hbuf, hobs]

theorem received_fifo_witness :
    DW.init.observerResult = none ∧ DW.init.receivedData = [] ∧
    DW.init.receivedObservers = [] ∧
    (((((DW.init.received (.bytes [1])).1.received (.bytes [2])).1.received
          (.bytes [3])).1.when_received).2 = .immediate (.ok (.bytes [1])) ∧
     ((((DW.init.when_received).1.when_received).1.received (.bytes [7])).1.received
          (.bytes [8])).2 = [(DW.init.nextId + 1, Outcome.ok (.bytes [8]))]) :=
  ⟨rfl, rfl, rfl,
   (received_fifo DW.init (.bytes [1]) (.bytes [2]) (.bytes [3]) (.bytes [7])
      (.bytes [8]) rfl rfl rfl).2.2.1.1,
   (received_fifo DW.init (.bytes [1]) (.bytes [2]) (.bytes [3]) (.bytes [7])
      (.bytes [8]) rfl rfl rfl).2.2.2.2.2.2⟩

/-- Claim C3: `closed(result)` with a plain success value fires every close
observer with the success value itself, fires every pending scalar and
receive observer with the failure `WormholeClosed(result)` (never with the
success value: `Outcome.err ... ≠ Outcome.ok v`), and records the asymmetric
pair `_closed_result = result`, `_observer_result = WormholeClosed(result)`. -/
theorem clean_close_asymmetry (st : DW) (v : PyVal) :
    (st.closed (.value v)).2 =
      st.codeObservers.map (fun d => (d, Outcome.err (.wormholeClosed v))) ++
      st.keyObservers.map (fun d => (d, Outcome.err (.wormholeClosed v))) ++
      st.verifierObservers.map (fun d => (d, Outcome.err (.wormholeClosed v))) ++
      st.versionObservers.map (fun d => (d, Outcome.err (.wormholeClosed v))) ++
      st.receivedObservers.map (fun d => (d, Outcome.err (.wormholeClosed v))) ++
      st.closedObservers.map (fun d => (d, Outcome.ok v)) ∧
    (st.closed (.value v)).1.closedResult = some (.ok v) ∧
    (st.closed (.value v)).1.observerResult = some (.wormholeClosed v) ∧
    Outcome.err (Err.wormholeClosed v) ≠ Outcome.ok v :=
  ⟨rfl, rfl, rfl, by simp⟩

/-- Claim C4: `closed(f)` with `f` a failure fires the close observers and
every pending scalar and receive observer with exactly that failure,
propagated verbatim, and records it as both the observer error and the close
outcome. -/
theorem failed_close_broadcast (st : DW) (e : PyVal) :
    (st.closed (.exception e)).2 =
      st.codeObservers.map (fun d => (d, Outcome.err (.sessionFailure e))) ++
      st.keyObservers.map (fun d => (d, Outcome.err (.sessionFailure e))) ++
      st.verifierObservers.map (fun d => (d, Outcome.err (.sessionFailure e))) ++
      st.versionObservers.map (fun d => (d, Outcome.err (.sessionFailure e))) ++
      st.receivedObservers.map (fun d => (d, Outcome.err (.sessionFailure e))) ++
      st.closedObservers.map (fun d => (d, Outcome.err (.sessionFailure e))) ∧
    (st.closed (.exception e)).1.closedResult = some (.err (.sessionFailure e)) ∧
    (st.closed (.exception e)).1.observerResult = some (.sessionFailure e) :=
  ⟨rfl, rfl, rfl⟩

/-- Claim C5 counterexample: after `closed` fired with the falsy success
value `""` the terminal outcome is recorded, yet a subsequent `close()` does
not return the cached outcome — `if self._closed_result:` fails on a falsy
value — and instead registers a new close observer and invokes the engine's
close again (`bossCloseCalls` grows from 0 to 1). -/
theorem close_not_idempotent_on_falsy_result :
    ((DW.init.closed (.value (.str ""))).1).closedResult =
        some (.ok (.str "")) ∧
    (((DW.init.closed (.value (.str ""))).1).close).2 = .pending 0 ∧
    ((((DW.init.closed (.value (.str ""))).1).close).1).bossCloseCalls = 1 :=
  ⟨rfl, rfl, rfl⟩

/-- Claim C5 as amended: once `closed(result)` has recorded a truthy outcome
(any failure, or a non-falsy success value), every subsequent `close()`
returns the same cached outcome as an already-resolved Deferred and does not
invoke the engine's close again; for a falsy recorded success value —
and likewise before any outcome is recorded — `close()` registers a close
observer and invokes the engine's close. -/
theorem close_idempotent_truthy (st : DW) (r : Outcome)
    (h : st.closedResult = some r) :
    (r.truthy = true → st.close = (st, .immediate r)) ∧
    (r.truthy = false → st.close = (closeRegister st, .pending st.nextId)) ∧
    (∀ t : DW, t.closedResult = none →
        t.close = (closeRegister t, .pending t.nextId)) := by
  refine ⟨?_, ?_, ?_⟩
  · intro ht
    simp [DW.close, h, ht]
  · intro ht
    simp [DW.close, h, ht]
  · intro t ht
    simp [DW.close, ht]

theorem close_idempotent_truthy_witness :
    ((DW.init.closed (.value (.str "happy"))).1).closedResult =
        some (.ok (.str "happy")) ∧
    (Outcome.ok (.str "happy")).truthy = true ∧
    ((DW.init.closed (.value (.str "happy"))).1).close =
      ((DW.init.closed (.value (.str "happy"))).1,
       .immediate (.ok (.str "happy"))) :=
  ⟨rfl, rfl,
   (close_idempotent_truthy (DW.init.closed (.value (.str "happy"))).1
      (.ok (.str "happy")) rfl).1 rfl⟩

/-- Claim C6 counterexample: after `got_key` delivered the (empty) session
key `b""`, `derive_key` with a valid string purpose does not delegate to the
external derivation function but raises `NoKeyError`, because
`if not self._key:` tests Python truthiness rather than presence. -/
theorem derive_key_empty_key_counterexample :
    ((DW.init.got_key (.bytes [])).1).key = some (.bytes []) ∧
    DW.derive_key kdf0 (DW.init.got_key (.bytes [])).1 (.str "purpose") 32 =
        .error .noKey ∧
    (Except.error Err.noKey : Except Err (List Nat)) ≠
        .ok (kdf0 (.bytes []) (to_bytes (.str "purpose")) 32) :=
  ⟨rfl, rfl, by simp⟩

/-- Claim C6 as amended: on either facade flavor, `derive_key(purpose, length)`
raises a type error when the purpose is not a text string; raises a no-key
error when the cached key is falsy — that is, not yet delivered, or
delivered but empty; and otherwise delegates to the external derivation
function on (cached key, purpose encoded as bytes, length) and returns its
result. Both facade methods share this one body. -/
theorem derive_key_cases (kdf : PyVal → List Nat → Nat → List Nat)
    (key : Option PyVal) (purpose : PyVal) (len : Nat) :
    (purpose.isStr = false →
        deriveKeyCall kdf key purpose len = .error .typeError) ∧
    (optTruthy key = false → purpose.isStr = true →
        deriveKeyCall kdf key purpose len = .error .noKey) ∧
    (∀ k : PyVal, key = some k → k.truthy = true → purpose.isStr = true →
        deriveKeyCall kdf key purpose len =
          .ok (kdf k (to_bytes purpose) len)) ∧
    (∀ st : DW, st.derive_key kdf purpose len =
        deriveKeyCall kdf st.key purpose len) ∧
    (∀ dst : DelW, dst.derive_key kdf purpose len =
        deriveKeyCall kdf dst.key purpose len) := by
  refine ⟨?_, ?_, ?_, fun st => rfl, fun dst => rfl⟩
  · intro hp
    simp [deriveKeyCall, hp]
  · intro hk hp
    simp [deriveKeyCall, hp, hk]
  · intro k hk ht hp
    subst hk
    simp [deriveKeyCall, hp, optTruthy, ht]

theorem derive_key_cases_witness :
    (PyVal.bytes [1, 2]).truthy = true ∧
    (PyVal.str "p").isStr = true ∧
    deriveKeyCall kdf0 (some (.bytes [1, 2])) (.str "p") 4 =
        .ok (kdf0 (.bytes [1, 2]) (to_bytes (.str "p")) 4) :=
  ⟨rfl, rfl,
   (derive_key_cases kdf0 (some (.bytes [1, 2])) (.str "p") 4).2.2.1
     (.bytes [1, 2]) rfl rfl rfl⟩

/-- Claim C7 counterexample: after `closed("")` the terminal outcome is
recorded and every subsequently requested observer fails, yet `close()` does
not report the true close outcome — the falsy recorded success value defeats
`if self._closed_result:`, so `close()` returns a pending Deferred and
re-invokes the engine's close instead. -/
theorem closed_terminal_close_counterexample :
    ((DW.init.closed (.value (.str ""))).1).observerResult =
        some (.wormholeClosed (.str "")) ∧
    (((DW.init.closed (.value (.str ""))).1).close).2 ≠
        .immediate (closeResOf (.value (.str ""))) ∧
    (((DW.init.closed (.value (.str ""))).1).close).2 = .pending 0 ∧
    ((((DW.init.closed (.value (.str ""))).1).close).1).bossCloseCalls = 1 :=
  ⟨rfl, by decide, rfl, rfl⟩

/-- Claim C7 as amended: the state after `closed(result)` is absorbing for
observers — every subsequently requested scalar observer and every
subsequently requested receive observer resolves immediately with the
failure derived from the close outcome, whatever values or messages were
cached before the close. When the recorded outcome is truthy (every failure,
and every non-falsy success value), `close()` is alone in resolving with the
true close outcome itself; for a falsy success value, `close()` does not
report the outcome either — it returns a pending Deferred and re-invokes the
engine's close. -/
theorem closed_terminal_absorbing (st : DW) (r : CloseInput) :
    (∀ s : Scalar, (whenScalar s (st.closed r).1).2 =
        .immediate (.err (obsErrOf r))) ∧
    (((st.closed r).1).when_received).2 = .immediate (.err (obsErrOf r)) ∧
    ((closeResOf r).truthy = true →
        (((st.closed r).1).close).2 = .immediate (closeResOf r)) ∧
    ((closeResOf r).truthy = false →
        (((st.closed r).1).close).2 = .pending ((st.closed r).1).nextId ∧
        ((((st.closed r).1).close).1).bossCloseCalls =
          ((st.closed r).1).bossCloseCalls + 1) := by
  refine ⟨?_, rfl, ?_, ?_⟩
  · intro s
    exact congrArg Prod.snd (whenScalar_closed s (st.closed r).1 (obsErrOf r) rfl)
  · intro ht
    have hc : ((st.closed r).1).closedResult = some (closeResOf r) := rfl
    simp [DW.close, hc, ht]
  · intro ht
    have hc : ((st.closed r).1).closedResult = some (closeResOf r) := rfl
    refine ⟨?_, ?_⟩ <;> simp [DW.close, hc, ht, closeRegister]

theorem closed_terminal_absorbing_witness :
    (closeResOf (.value (.str "happy"))).truthy = true ∧
    ((((DW.init.got_code (.str "4-x")).1.closed (.value (.str "happy"))).1).code =
        some (.str "4-x")) ∧
    (whenScalar .code
        ((DW.init.got_code (.str "4-x")).1.closed (.value (.str "happy"))).1).2 =
        .immediate (.err (obsErrOf (.value (.str "happy")))) ∧
    ((((DW.init.got_code (.str "4-x")).1.closed (.value (.str "happy"))).1).close).2 =
        .immediate (closeResOf (.value (.str "happy"))) ∧
    (closeResOf (.value (.bytes []))).truthy = false ∧
    (((DW.init.closed (.value (.bytes []))).1).close).2 =
        .pending ((DW.init.closed (.value (.bytes []))).1).nextId :=
  ⟨rfl, rfl,
   (closed_terminal_absorbing (DW.init.got_code (.str "4-x")).1
      (.value (.str "happy"))).1 .code,
   (closed_terminal_absorbing (DW.init.got_code (.str "4-x")).1
      (.value (.str "happy"))).2.2.1 rfl,
   rfl,
   ((closed_terminal_absorbing DW.init (.value (.bytes []))).2.2.2 rfl).1⟩

/-- Hex encoding yields two characters per input byte. -/
theorem bytes_to_hexstr_length (b : List Nat) :
    (bytes_to_hexstr b).length = 2 * b.length := by
  show (b.flatMap fun x => [hexDigit (x / 16 % 16), hexDigit (x % 16)]).length
      = 2 * b.length
  induction b with
  | nil => rfl
  | cons x xs ih =>
    rw [List.flatMap_cons, List.length_append, ih]
    show 2 + 2 * xs.length = 2 * (xs.length + 1)
    omega

/-- Claim C8: `create` derives the side identifier by hex-encoding the
5-byte random string it draws (so 10 hex characters), chooses the delegated
facade exactly when a delegate is supplied and the deferred facade
otherwise, hands the engine the capability payload wrapping the caller's
version map under the key "app_versions", and has started the engine by the
time the facade is returned. -/
theorem create_wiring (appid relay : String) (versions : PyVal)
    (delegate : Bool) (urandom : Nat → List Nat)
    (hlen : (urandom 5).length = 5) :
    (create appid relay versions delegate urandom).boss.side =
        bytes_to_hexstr (urandom 5) ∧
    (create appid relay versions delegate urandom).boss.side.length = 10 ∧
    ((create appid relay versions delegate urandom).facade =
        if delegate then .delegated {} else .deferredStyle DW.init) ∧
    (create appid relay versions delegate urandom).boss.wormhole_versions =
        [("app_versions", versions)] ∧
    (create appid relay versions delegate urandom).boss.started = true := by
  refine ⟨rfl, ?_, rfl, rfl, rfl⟩
  show (bytes_to_hexstr (urandom 5)).length = 10
  rw [bytes_to_hexstr_length, hlen]

theorem create_wiring_witness :
    ((fun _ => [0, 17, 34, 255, 1] : Nat → List Nat) 5).length = 5 ∧
    (create "app" "url" (.dict [("v", "1")]) false
        (fun _ => [0, 17, 34, 255, 1])).boss.side.length = 10 ∧
    (create "app" "url" (.dict [("v", "1")]) false
        (fun _ => [0, 17, 34, 255, 1])).boss.side = "001122ff01" :=
  ⟨rfl,
   (create_wiring "app" "url" (.dict [("v", "1")]) false
      (fun _ => [0, 17, 34, 255, 1]) rfl).2.1,
   by decide⟩

/-- Claim C9 counterexample: a facade that received the (empty) key `b""`
before close keeps it cached through `closed`, yet `derive_key` with a valid
string purpose does not succeed after close — it raises `NoKeyError`, since
`if not self._key:` is a truthiness test. -/
theorem key_after_close_counterexample :
    (((DW.init.got_key (.bytes [])).1.closed (.value (.str "happy"))).1).key =
        some (.bytes []) ∧
    DW.derive_key kdf0
        ((DW.init.got_key (.bytes [])).1.closed (.value (.str "happy"))).1
        (.str "p") 32 = .error .noKey :=
  ⟨rfl, rfl⟩

/-- Claim C9 as amended: `closed(result)` leaves the cached session key
unchanged on both facade flavors, and for every facade that received a
truthy (non-empty) key `k` before close, `derive_key` with a valid string
purpose still succeeds after close, using the same key `k`. -/
theorem key_survives_close (kdf : PyVal → List Nat → Nat → List Nat)
    (st : DW) (dst : DelW) (k purpose : PyVal) (r : CloseInput) (len : Nat)
    (hk : st.key = some k) (hdk : dst.key = some k)
    (ht : k.truthy = true) (hp : purpose.isStr = true) :
    ((st.closed r).1).key = some k ∧
    DW.derive_key kdf (st.closed r).1 purpose len =
        .ok (kdf k (to_bytes purpose) len) ∧
    ((dst.closed r).1).key = some k ∧
    DelW.derive_key kdf (dst.closed r).1 purpose len =
        .ok (kdf k (to_bytes purpose) len) := by
  refine ⟨hk, ?_, hdk, ?_⟩
  · show deriveKeyCall kdf st.key purpose len = _
    rw [hk]
    simp [deriveKeyCall, hp, optTruthy, ht]
  · show deriveKeyCall kdf dst.key purpose len = _
    rw [hdk]
    simp [deriveKeyCall, hp, optTruthy, ht]

theorem key_survives_close_witness :
    ((DW.init.got_key (.bytes [7])).1).key = some (.bytes [7]) ∧
    (PyVal.bytes [7]).truthy = true ∧
    DW.derive_key kdf0
        ((DW.init.got_key (.bytes [7])).1.closed (.value (.str "happy"))).1
        (.str "p") 3 = .ok (kdf0 (.bytes [7]) (to_bytes (.str "p")) 3) :=
  ⟨rfl, rfl,
   (key_survives_close kdf0 (DW.init.got_key (.bytes [7])).1 ⟨some (.bytes [7])⟩
      (.bytes [7]) (.str "p") (.value (.str "happy")) 3 rfl rfl rfl rfl).2.1⟩

/-- Claim C10 counterexample: even after `got_key` has returned, a
`derive_key` call does not succeed when the delivered key was the empty byte
string — `if not self._key:` raises `NoKeyError` on the falsy cached key. -/
theorem delegated_got_key_counterexample :
    ((DelW.got_key ⟨none⟩ (.bytes [])).1).key = some (.bytes []) ∧
    DelW.derive_key kdf0 (DelW.got_key ⟨none⟩ (.bytes [])).1 (.str "p") 8 =
        .error .noKey :=
  ⟨rfl, rfl⟩

/-- Claim C10 as amended: on the delegated facade, `got_key` invokes the
delegate's `wormhole_key` callback before caching the key, so during the
first key delivery a re-entrant `derive_key` from inside the handler sees
the pre-delivery state and raises a no-key error, while a `derive_key`
issued after `got_key` has returned succeeds with the cached key provided
the delivered key is truthy (non-empty). -/
theorem delegated_got_key_reentrancy (kdf : PyVal → List Nat → Nat → List Nat)
    (st : DelW) (k purpose : PyVal) (len : Nat)
    (h0 : st.key = none) (hp : purpose.isStr = true) :
    (st.got_key k).2.1 = .wormhole_key k ∧
    DelW.derive_key kdf (st.got_key k).2.2 purpose len = .error .noKey ∧
    (st.got_key k).1.key = some k ∧
    (k.truthy = true →
        DelW.derive_key kdf (st.got_key k).1 purpose len =
          .ok (kdf k (to_bytes purpose) len)) := by
  refine ⟨rfl, ?_, rfl, ?_⟩
  · show deriveKeyCall kdf st.key purpose len = _
    rw [h0]
    simp [deriveKeyCall, hp, optTruthy]
  · intro ht
    show deriveKeyCall kdf (some k) purpose len = _
    simp [deriveKeyCall, hp, optTruthy, ht]

theorem delegated_got_key_reentrancy_witness :
    (PyVal.bytes [9]).truthy = true ∧
    DelW.derive_key kdf0 (DelW.got_key ⟨none⟩ (.bytes [9])).2.2 (.str "p") 2 =
        .error .noKey ∧
    DelW.derive_key kdf0 (DelW.got_key ⟨none⟩ (.bytes [9])).1 (.str "p") 2 =
        .ok (kdf0 (.bytes [9]) (to_bytes (.str "p")) 2) :=
  ⟨rfl,
   (delegated_got_key_reentrancy kdf0 ⟨none⟩ (.bytes [9]) (.str "p") 2
      rfl rfl).2.1,
   (delegated_got_key_reentrancy kdf0 ⟨none⟩ (.bytes [9]) (.str "p") 2
      rfl rfl).2.2.2 rfl⟩

end WormholeSpec
